import Mathlib

/-!
Verification of the CapiCar server (a thin HTTP facade over an Airtable
store for order-fulfillment tasks).  The TypeScript source is shallowly
embedded: the remote store becomes an explicit state record `St`, each
`await`ed store call becomes a state-passing function, thrown exceptions
become `Except`, and the network-failure points (Airtable create/update
throwing, `find` failing) become explicit boolean flags threaded to the
places where the source has a `try`/`catch`.
-/

namespace CapiCar

/-- TaskStatus enum from src/types/index.ts. -/
inductive TaskStatus where
  | pending
  | picking
  | packed
  | inspecting
  | correctionNeeded
  | correcting
  | completed
  | cancelled
  deriving Repr, DecidableEq

/-- String value of each TaskStatus enum member. -/
def statusName : TaskStatus → String
  | TaskStatus.pending => "Pending"
  | TaskStatus.picking => "Picking"
  | TaskStatus.packed => "Packed"
  | TaskStatus.inspecting => "Inspecting"
  | TaskStatus.correctionNeeded => "Correction_Needed"
  | TaskStatus.correcting => "Correcting"
  | TaskStatus.completed => "Completed"
  | TaskStatus.cancelled => "Cancelled"

/-- TaskAction enum from src/types/index.ts. -/
inductive TaskAction where
  | startPicking
  | startPacking
  | startInspection
  | completeInspection
  | enterCorrection
  | startCorrection
  | resolveCorrection
  | labelCreated
  | reportException
  | pauseTask
  | resumeTask
  | cancelTask
  deriving Repr, DecidableEq

/-- String value of each TaskAction enum member. -/
def actionName : TaskAction → String
  | TaskAction.startPicking => "START_PICKING"
  | TaskAction.startPacking => "START_PACKING"
  | TaskAction.startInspection => "START_INSPECTION"
  | TaskAction.completeInspection => "COMPLETE_INSPECTION"
  | TaskAction.enterCorrection => "ENTER_CORRECTION"
  | TaskAction.startCorrection => "START_CORRECTION"
  | TaskAction.resolveCorrection => "RESOLVE_CORRECTION"
  | TaskAction.labelCreated => "LABEL_CREATED"
  | TaskAction.reportException => "REPORT_EXCEPTION"
  | TaskAction.pauseTask => "PAUSE_TASK"
  | TaskAction.resumeTask => "RESUME_TASK"
  | TaskAction.cancelTask => "CANCEL_TASK"

/-- The route handler switches on the raw action string against the enum
values; this models which strings hit which `case`. -/
def parseAction (s : String) : Option TaskAction :=
  if s = "START_PICKING" then some TaskAction.startPicking
  else if s = "START_PACKING" then some TaskAction.startPacking
  else if s = "START_INSPECTION" then some TaskAction.startInspection
  else if s = "COMPLETE_INSPECTION" then some TaskAction.completeInspection
  else if s = "ENTER_CORRECTION" then some TaskAction.enterCorrection
  else if s = "START_CORRECTION" then some TaskAction.startCorrection
  else if s = "RESOLVE_CORRECTION" then some TaskAction.resolveCorrection
  else if s = "LABEL_CREATED" then some TaskAction.labelCreated
  else if s = "REPORT_EXCEPTION" then some TaskAction.reportException
  else if s = "PAUSE_TASK" then some TaskAction.pauseTask
  else if s = "RESUME_TASK" then some TaskAction.resumeTask
  else if s = "CANCEL_TASK" then some TaskAction.cancelTask
  else none

/-- JavaScript truthiness of an optional string: `undefined` and the empty
string are falsy. -/
def optTruthy : Option String → Bool
  | none => false
  | some s => if s = "" then false else true

/-- A row of the Staff table: the Airtable-internal record id plus the
domain fields used by the service. -/
structure StaffRec where
  recordId : String
  staffId : String
  name : String
  deriving Repr, DecidableEq

/-- StaffMember domain object from src/types/index.ts. -/
structure StaffMember where
  id : String
  name : String
  deriving Repr, DecidableEq

/-- The fields of a row of the Tasks table that the lifecycle code reads
or writes.  `currentOperator = ""` is the cleared state (Airtable stores
an empty field; the source writes `''` to clear it). -/
structure TaskFields where
  status : TaskStatus
  currentOperator : String
  isPaused : Bool
  inExceptionPool : Bool
  exceptionReason : Option String
  exceptionNotes : Option String
  exceptionLoggedAt : Option String
  startedAt : Option String
  pickedAt : Option String
  startInspectionAt : Option String
  completedAt : Option String
  updatedAt : Option String
  deriving Repr, DecidableEq

/-- A partial update object (the `updateFields` literals of the source):
`none` means the field is not mentioned in the update. -/
structure TaskUpdate where
  status : Option TaskStatus := none
  currentOperator : Option String := none
  isPaused : Option Bool := none
  inExceptionPool : Option Bool := none
  exceptionReason : Option String := none
  exceptionNotes : Option String := none
  exceptionLoggedAt : Option String := none
  startedAt : Option String := none
  pickedAt : Option String := none
  startInspectionAt : Option String := none
  completedAt : Option String := none
  updatedAt : Option String := none
  deriving Repr, DecidableEq

/-- Airtable `update(id, fields)` semantics: fields present in the update
replace the stored ones, the rest are unchanged. -/
def applyUpdate (f : TaskFields) (u : TaskUpdate) : TaskFields :=
  { status := u.status.getD f.status
    currentOperator := u.currentOperator.getD f.currentOperator
    isPaused := u.isPaused.getD f.isPaused
    inExceptionPool := u.inExceptionPool.getD f.inExceptionPool
    exceptionReason := u.exceptionReason.orElse (fun _ => f.exceptionReason)
    exceptionNotes := u.exceptionNotes.orElse (fun _ => f.exceptionNotes)
    exceptionLoggedAt := u.exceptionLoggedAt.orElse (fun _ => f.exceptionLoggedAt)
    startedAt := u.startedAt.orElse (fun _ => f.startedAt)
    pickedAt := u.pickedAt.orElse (fun _ => f.pickedAt)
    startInspectionAt := u.startInspectionAt.orElse (fun _ => f.startInspectionAt)
    completedAt := u.completedAt.orElse (fun _ => f.completedAt)
    updatedAt := u.updatedAt.orElse (fun _ => f.updatedAt) }

/-- One row of the Audit_Log table, as built by `logAction`. -/
structure AuditEntry where
  timestamp : String
  taskId : String
  actionType : String
  staffLink : Option String
  oldValue : Option String
  newValue : Option String
  details : String
  deriving Repr, DecidableEq

/-- The remote store: the three tables the service touches. -/
structure St where
  tasks : List (String × TaskFields)
  staff : List StaffRec
  audit : List AuditEntry
  deriving Repr, DecidableEq

/-- AirtableService.getTaskById: `find` on the Tasks table with every
error caught and turned into `null`.  `failFind` models the store call
throwing for any reason (network, rate limit, bad id). -/
def getTaskById (failFind : Bool) (taskId : String) (st : St) : Option TaskFields :=
  if failFind then none
  else (st.tasks.find? (fun p => p.1 = taskId)).map (fun p => p.2)

/-- AirtableService.getStaffById: filter the Staff table by the staff_id
field and return the domain object. -/
def getStaffById (st : St) (staffId : String) : Option StaffMember :=
  (st.staff.find? (fun r => r.staffId = staffId)).map
    (fun r => { id := r.staffId, name := r.name })

/-- AirtableService.getStaffRecordId: same filter, returning the
Airtable-internal record id. -/
def getStaffRecordId (st : St) (staffId : String) : Option String :=
  (st.staff.find? (fun r => r.staffId = staffId)).map (fun r => r.recordId)

/-- AirtableService.mapActionType: map high-level action names onto the
closed vocabulary of the Audit_Log action_type field. -/
def mapActionType (actionType : String) : String :=
  if actionType = "START_PICKING" then "Task_Started"
  else if actionType = "START_PACKING" then "Packing_Started"
  else if actionType = "START_INSPECTION" then "Inspection_Started"
  else if actionType = "COMPLETE_INSPECTION" then "Task_Completed"
  else if actionType = "ENTER_CORRECTION" then "Inspection_Failed"
  else if actionType = "START_CORRECTION" then "Correction_Started"
  else if actionType = "RESOLVE_CORRECTION" then "Correction_Completed"
  else if actionType = "LABEL_CREATED" then "Other_Actions"
  else if actionType = "REPORT_EXCEPTION" then "Exception_Logged"
  else if actionType = "PAUSE_TASK" then "Task_Paused"
  else if actionType = "RESUME_TASK" then "Task_Resumed"
  else if actionType = "CANCEL_TASK" then "Task_Auto_Cancelled"
  else if actionType = "INSPECTION_PASSED" then "Task_Completed"
  else if actionType = "INSPECTION_FAILED" then "Inspection_Failed"
  else if actionType = "TASK_PAUSED" then "Task_Paused"
  else if actionType = "CORRECTION_STARTED" then "Correction_Started"
  else if actionType = "TASK_COMPLETED" then "Task_Completed"
  else if actionType = "status_change" then "Other_Actions"
  else if actionType = "checklist_update" then "Other_Actions"
  else "Other_Actions"

/-- AirtableService.getActionTypeForStatus. -/
def getActionTypeForStatus (status : TaskStatus) : String :=
  match status with
  | TaskStatus.picking => "START_PICKING"
  | TaskStatus.packed => "START_PACKING"
  | TaskStatus.inspecting => "START_INSPECTION"
  | TaskStatus.completed => "COMPLETE_INSPECTION"
  | TaskStatus.cancelled => "CANCEL_TASK"
  | TaskStatus.correctionNeeded => "ENTER_CORRECTION"
  | TaskStatus.correcting => "START_CORRECTION"
  | _ => "FIELD_UPDATED"

/-- The source only writes old_value/new_value when the argument is
truthy and non-blank after trimming. -/
def nonEmptyTrim : Option String → Option String
  | none => none
  | some s => if s = "" then none else if s.trim = "" then none else some s.trim

/-- The staff resolution step of logAction: the Airtable record id to
link (when one can be established) and the display name used in the
details text. -/
def resolveAuditStaff (st : St) (operatorId : String) : Option String × String :=
  if operatorId = "unknown" ∨ operatorId = "" then (none, "Unknown Operator")
  else
    match getStaffById st operatorId with
    | none => (none, "Unknown (" ++ operatorId ++ ")")
    | some sm =>
      match getStaffRecordId st operatorId with
      | none => (none, if sm.name = "" then "Unknown (" ++ operatorId ++ ")" else sm.name)
      | some rid => (some rid, sm.name)

/-- The Audit_Log row logAction creates. -/
def buildAuditEntry (now operatorId taskId actionType : String)
    (oldValue newValue details : Option String) (timestamp : Option String)
    (st : St) : AuditEntry :=
  let staffInfo := resolveAuditStaff st operatorId
  { timestamp := timestamp.getD now
    taskId := taskId
    actionType := mapActionType actionType
    staffLink := staffInfo.1
    oldValue := nonEmptyTrim oldValue
    newValue := nonEmptyTrim newValue
    details := (actionType ++ ": " ++ details.getD "" ++ " (by " ++ staffInfo.2 ++ ")").trim }

/-- AirtableService.logAction.  Resolves the staff member, builds the
audit fields and creates the Audit_Log row.  The whole body is wrapped in
a `try`/`catch` that returns `false` instead of throwing; `failAudit`
models the Airtable `create` call throwing. -/
def logAction (failAudit : Bool) (now operatorId taskId actionType : String)
    (oldValue newValue details : Option String) (timestamp : Option String)
    (st : St) : St × Bool :=
  if failAudit then (st, false)
  else
    ({ st with audit :=
        buildAuditEntry now operatorId taskId actionType oldValue newValue details timestamp st
          :: st.audit }, true)

/-- The pure part of an Airtable `update` on the Tasks table: fails when
the store call throws (`failUpdate`) or the record id does not exist. -/
def updCore (failUpdate : Bool) (taskId : String) (u : TaskUpdate)
    (tasks : List (String × TaskFields)) :
    List (String × TaskFields) × Except String TaskFields :=
  if failUpdate then (tasks, Except.error "update failed")
  else
    match tasks.find? (fun p => p.1 = taskId) with
    | none => (tasks, Except.error "record not found")
    | some p =>
      let f2 := applyUpdate p.2 u
      (tasks.map (fun q => if q.1 = taskId then (q.1, f2) else q), Except.ok f2)

/-- `base(TASKS_TABLE).update(taskId, u)` as a state transformer. -/
def airtableUpdate (failUpdate : Bool) (taskId : String) (u : TaskUpdate)
    (st : St) : St × Except String TaskFields :=
  let r := updCore failUpdate taskId u st.tasks
  ({ st with tasks := r.1 }, r.2)

/-- AirtableService.atomicTaskOperation: step 1 creates the audit log
(never throws, reports success as a flag), step 2 applies the task
update and rethrows its failure. -/
def atomicTaskOperation (failAudit failUpdate : Bool)
    (now taskId operatorId actionType : String) (taskUpdate : TaskUpdate)
    (oldValue newValue details : Option String) (st : St) :
    St × Except String (TaskFields × Bool) :=
  let r1 := logAction failAudit now operatorId taskId actionType oldValue newValue details none st
  match airtableUpdate failUpdate taskId taskUpdate r1.1 with
  | (st2, Except.ok f) => (st2, Except.ok (f, r1.2))
  | (st2, Except.error e) => (st2, Except.error ("Failed to update task: " ++ e))

/-- The `updateFields` object built by AirtableService.updateTaskStatus:
status, updated_at, a status-specific timestamp, and current_operator set
to the operator when truthy and cleared to the empty string otherwise. -/
def buildStatusUpdate (now : String) (status : TaskStatus)
    (operatorId : Option String) : TaskUpdate :=
  { status := some status
    updatedAt := some now
    currentOperator := some (if optTruthy operatorId then operatorId.getD "" else "")
    startedAt := if status = TaskStatus.picking then some now else none
    pickedAt := if status = TaskStatus.packed then some now else none
    startInspectionAt := if status = TaskStatus.inspecting then some now else none
    completedAt := if status = TaskStatus.completed then some now else none }

/-- AirtableService.updateTaskStatus.  Reads the current task (null on
any failure), builds the update, and either goes through
atomicTaskOperation (operator truthy) or updates directly.  The
surrounding `catch` rethrows every store failure. -/
def updateTaskStatus (failFind failAudit failUpdate : Bool)
    (now taskId : String) (status : TaskStatus) (operatorId : Option String)
    (st : St) : St × Except String (Option TaskFields) :=
  match getTaskById failFind taskId st with
  | none => (st, Except.ok none)
  | some currentTask =>
    let u := buildStatusUpdate now status operatorId
    if optTruthy operatorId then
      let actionType := getActionTypeForStatus status
      match atomicTaskOperation failAudit failUpdate now taskId (operatorId.getD "")
          actionType u (some (statusName currentTask.status)) (some (statusName status))
          (some ("Status updated from " ++ statusName currentTask.status ++
            " to " ++ statusName status)) st with
      | (st1, Except.ok r) => (st1, Except.ok (some r.1))
      | (st1, Except.error _) => (st1, Except.error "Failed to update task status")
    else
      match airtableUpdate failUpdate taskId u st with
      | (st1, Except.ok f) => (st1, Except.ok (some f))
      | (st1, Except.error _) => (st1, Except.error "Failed to update task status")

/-- AirtableService.pauseTask: set is_paused, clear the operator; with a
truthy operator the write goes through atomicTaskOperation (the current
task is fetched only for the audit old/new values and may be null). -/
def pauseTask (failFind failAudit failUpdate : Bool) (now taskId : String)
    (operatorId : Option String) (st : St) :
    St × Except String (Option TaskFields) :=
  let u : TaskUpdate := { isPaused := some true, currentOperator := some "", updatedAt := some now }
  if optTruthy operatorId then
    let currentTask := getTaskById failFind taskId st
    match atomicTaskOperation failAudit failUpdate now taskId (operatorId.getD "")
        "PAUSE_TASK" u (currentTask.map (fun t => statusName t.status))
        (currentTask.map (fun t => statusName t.status))
        (some "Task paused by operator") st with
    | (st1, Except.ok r) => (st1, Except.ok (some r.1))
    | (st1, Except.error _) => (st1, Except.error "Failed to pause task")
  else
    match airtableUpdate failUpdate taskId u st with
    | (st1, Except.ok f) => (st1, Except.ok (some f))
    | (st1, Except.error _) => (st1, Except.error "Failed to pause task")

/-- AirtableService.resumeTask: clear is_paused, assign the resuming
operator (when truthy), always through atomicTaskOperation. -/
def resumeTask (failFind failAudit failUpdate : Bool) (now taskId operatorId : String)
    (st : St) : St × Except String (Option TaskFields) :=
  match getTaskById failFind taskId st with
  | none => (st, Except.ok none)
  | some currentTask =>
    let u : TaskUpdate :=
      { isPaused := some false
        updatedAt := some now
        currentOperator := if operatorId = "" then none else some operatorId }
    match atomicTaskOperation failAudit failUpdate now taskId operatorId
        "RESUME_TASK" u (some "Paused") (some (statusName currentTask.status))
        (some ("Task resumed from " ++ statusName currentTask.status ++ " status")) st with
    | (st1, Except.ok r) => (st1, Except.ok (some r.1))
    | (st1, Except.error _) => (st1, Except.error "Failed to resume task")

/-- The fields of the `payload` object that the action route reads. -/
structure ActionPayload where
  weight : Option String := none
  dimensions : Option String := none
  errorType : Option String := none
  reason : Option String := none
  notes : Option String := none
  deriving Repr, DecidableEq

/-- The observable part of an HTTP response from the task routes:
status code, the success flag and the returned task data. -/
structure ActionResponse where
  httpStatus : Nat
  success : Bool
  task : Option TaskFields
  deriving Repr, DecidableEq

/-- Standard 400 response body. -/
def resp400 : ActionResponse := { httpStatus := 400, success := false, task := none }

/-- Standard 404 response body. -/
def resp404 : ActionResponse := { httpStatus := 404, success := false, task := none }

/-- Standard 500 response body (the route-level `catch`). -/
def resp500 : ActionResponse := { httpStatus := 500, success := false, task := none }

/-- The epilogue shared by all switch branches of POST /api/tasks/action:
`if (!updatedTask) return 404` else the 200 success body. -/
def finishAction (st : St) (updatedTask : Option TaskFields) : St × ActionResponse :=
  match updatedTask with
  | none => (st, resp404)
  | some t => (st, { httpStatus := 200, success := true, task := some t })

/-- Lift a service call returning `Except` into the route handler: a
thrown error is caught by the route and becomes a 500 response. -/
def finishUpdate (r : St × Except String (Option TaskFields)) : St × ActionResponse :=
  match r with
  | (st, Except.error _) => (st, resp500)
  | (st, Except.ok updatedTask) => finishAction st updatedTask

/-- POST /api/tasks/action from src/routes/tasks.ts: validates task_id
and action, switches on the action and runs the matching lifecycle
operation, with the manual logAction calls of the branches that clear
the operator reproduced in source order. -/
def postTaskAction (failFind failAudit failUpdate : Bool) (now : String)
    (taskId actionStr operatorId : Option String) (payload : ActionPayload)
    (st : St) : St × ActionResponse :=
  if ¬ optTruthy taskId ∨ ¬ optTruthy actionStr then (st, resp400)
  else
    let tid := taskId.getD ""
    match parseAction (actionStr.getD "") with
    | none => (st, resp400)
    | some TaskAction.startPicking =>
      finishUpdate (updateTaskStatus failFind failAudit failUpdate now tid
        TaskStatus.picking operatorId st)
    | some TaskAction.startPacking =>
      if ¬ optTruthy payload.weight ∨ ¬ optTruthy payload.dimensions then (st, resp400)
      else
        match updateTaskStatus failFind failAudit failUpdate now tid
            TaskStatus.packed none st with
        | (st1, Except.error _) => (st1, resp500)
        | (st1, Except.ok updatedTask) =>
          let st2 :=
            if optTruthy operatorId then
              (logAction failAudit now (operatorId.getD "") tid "START_PACKING"
                (some "Picking") (some "Packed")
                (some ("Started packing. Weight: " ++ payload.weight.getD "" ++
                  ", Dimensions: " ++ payload.dimensions.getD "")) none st1).1
            else st1
          finishAction st2 updatedTask
    | some TaskAction.startInspection =>
      finishUpdate (updateTaskStatus failFind failAudit failUpdate now tid
        TaskStatus.inspecting operatorId st)
    | some TaskAction.completeInspection =>
      let oldStatus := (getTaskById failFind tid st).map (fun t => t.status)
      match updateTaskStatus failFind failAudit failUpdate now tid
          TaskStatus.completed none st with
      | (st1, Except.error _) => (st1, resp500)
      | (st1, Except.ok updatedTask) =>
        let st2 :=
          if optTruthy operatorId ∧ oldStatus.isSome then
            (logAction failAudit now (operatorId.getD "") tid "COMPLETE_INSPECTION"
              (oldStatus.map statusName) (some "Completed")
              (some "Inspection completed successfully") none st1).1
          else st1
        finishAction st2 updatedTask
    | some TaskAction.enterCorrection =>
      if ¬ optTruthy payload.errorType then (st, resp400)
      else
        finishUpdate (updateTaskStatus failFind failAudit failUpdate now tid
          TaskStatus.correctionNeeded operatorId st)
    | some TaskAction.startCorrection =>
      finishUpdate (updateTaskStatus failFind failAudit failUpdate now tid
        TaskStatus.correcting operatorId st)
    | some TaskAction.resolveCorrection =>
      let oldStatus := (getTaskById failFind tid st).map (fun t => t.status)
      match updateTaskStatus failFind failAudit failUpdate now tid
          TaskStatus.completed none st with
      | (st1, Except.error _) => (st1, resp500)
      | (st1, Except.ok updatedTask) =>
        let st2 :=
          if optTruthy operatorId ∧ oldStatus.isSome then
            (logAction failAudit now (operatorId.getD "") tid "RESOLVE_CORRECTION"
              (oldStatus.map statusName) (some "Completed")
              (some "Correction resolved and task completed") none st1).1
          else st1
        finishAction st2 updatedTask
    | some TaskAction.labelCreated =>
      let oldStatus := (getTaskById failFind tid st).map (fun t => t.status)
      match updateTaskStatus failFind failAudit failUpdate now tid
          TaskStatus.completed none st with
      | (st1, Except.error _) => (st1, resp500)
      | (st1, Except.ok updatedTask) =>
        let st2 :=
          if optTruthy operatorId ∧ oldStatus.isSome then
            (logAction failAudit now (operatorId.getD "") tid "LABEL_CREATED"
              (oldStatus.map statusName) (some "Completed")
              (some "New label printed. Task completed.") none st1).1
          else st1
        finishAction st2 updatedTask
    | some TaskAction.pauseTask =>
      finishUpdate (pauseTask failFind failAudit failUpdate now tid operatorId st)
    | some TaskAction.cancelTask =>
      finishUpdate (updateTaskStatus failFind failAudit failUpdate now tid
        TaskStatus.cancelled operatorId st)
    | some TaskAction.reportException =>
      if ¬ optTruthy payload.reason then (st, resp400)
      else
        let oldStatus := (getTaskById failFind tid st).map (fun t => t.status)
        match updateTaskStatus failFind failAudit failUpdate now tid
            TaskStatus.pending operatorId st with
        | (st1, Except.error _) => (st1, resp500)
        | (st1, Except.ok updatedTask) =>
          let st2 :=
            if optTruthy operatorId ∧ oldStatus.isSome then
              (logAction failAudit now (operatorId.getD "") tid "REPORT_EXCEPTION"
                (oldStatus.map statusName) (some "Pending")
                (some ("Exception reported: " ++ payload.reason.getD "" ++
                  " - " ++ payload.notes.getD "")) none st1).1
            else st1
          finishAction st2 updatedTask
    | some TaskAction.resumeTask =>
      if ¬ optTruthy operatorId then (st, resp400)
      else
        finishUpdate (resumeTask failFind failAudit failUpdate now tid
          (operatorId.getD "") st)

/-- GET /api/tasks/:id: 404 when getTaskById yields null (the task is
absent OR the store call failed, since getTaskById swallows every
error), 200 with the task otherwise.  The handler never mutates. -/
def getTaskHandler (failFind : Bool) (taskId : String) (st : St) : ActionResponse :=
  match getTaskById failFind taskId st with
  | none => resp404
  | some t => { httpStatus := 200, success := true, task := some t }

/-- The observable part of a staff-route response. -/
structure StaffResponse where
  httpStatus : Nat
  success : Bool
  staff : Option StaffMember
  deriving Repr, DecidableEq

/-- GET /api/staff/:id from src/routes/staff.ts: look the member up by
the staff_id field; 404 when getStaffById yields null, 200 with the
domain object otherwise. -/
def getStaffHandler (staffId : String) (st : St) : StaffResponse :=
  match getStaffById st staffId with
  | none => { httpStatus := 404, success := false, staff := none }
  | some s => { httpStatus := 200, success := true, staff := some s }

/-- One entry of the `logs` array posted to /api/audit-logs/sync.
`storeFails` is a modelling input: whether the Airtable create for this
entry throws (the per-entry failure the route tolerates). -/
structure SyncLog where
  timestamp : Option String := none
  actionType : Option String := none
  staffId : Option String := none
  taskId : Option String := none
  oldValue : Option String := none
  newValue : Option String := none
  details : Option String := none
  storeFails : Bool := false
  deriving Repr, DecidableEq

/-- The observable response of POST /api/audit-logs/sync. -/
structure SyncResponse where
  httpStatus : Nat
  success : Bool
  syncedCount : Nat
  totalLogs : Nat
  errorCount : Nat
  deriving Repr, DecidableEq

/-- The per-entry loop of the sync handler: validate the four required
fields, call logAction with the client timestamp, and tally synced
entries and errors. -/
def syncLoop (now : String) (logs : List SyncLog) (st : St)
    (synced errs : Nat) : St × Nat × Nat :=
  match logs with
  | [] => (st, synced, errs)
  | l :: rest =>
    if ¬ optTruthy l.timestamp ∨ ¬ optTruthy l.actionType ∨
        ¬ optTruthy l.staffId ∨ ¬ optTruthy l.taskId then
      syncLoop now rest st synced (errs + 1)
    else
      let r := logAction l.storeFails now (l.staffId.getD "") (l.taskId.getD "")
        (l.actionType.getD "") (some (l.oldValue.getD "")) (some (l.newValue.getD ""))
        (some (l.details.getD "")) l.timestamp st
      if r.2 then syncLoop now rest r.1 (synced + 1) errs
      else syncLoop now rest r.1 synced (errs + 1)

/-- POST /api/audit-logs/sync: 400 when `logs` is missing or not an
array; otherwise process every entry, and report success exactly when
at least one entry was synced. -/
def syncHandler (logs : Option (List SyncLog)) (now : String) (st : St) :
    St × SyncResponse :=
  match logs with
  | none =>
    (st, { httpStatus := 400, success := false, syncedCount := 0, totalLogs := 0, errorCount := 0 })
  | some ls =>
    let r := syncLoop now ls st 0 0
    (r.1,
      { httpStatus := 200
        success := decide (0 < r.2.1)
        syncedCount := r.2.1
        totalLogs := ls.length
        errorCount := r.2.2 })

/-- A raw created_at/date value: either one that `new Date(raw)` parses
(carrying its ISO rendering) or one where `toISOString()` throws. -/
inductive RawDate where
  | valid (iso : String)
  | invalid (raw : String)
  deriving Repr, DecidableEq

/-- `new Date(raw).toISOString()`: throws a RangeError on an invalid
date, which the mapper catches. -/
def toISOString : RawDate → Except String String
  | RawDate.valid iso => Except.ok iso
  | RawDate.invalid _ => Except.error "Invalid time value"

/-- The raw current_operator cell: absent, a plain scalar value, or a
linked-record reference list. -/
inductive RawOperator where
  | absent
  | scalar (s : String)
  | refs (l : List String)
  deriving Repr, DecidableEq

/-- JavaScript truthiness of the raw operator cell: undefined and the
empty string are falsy; every array (even empty) is truthy. -/
def rawOpTruthy : RawOperator → Bool
  | RawOperator.absent => false
  | RawOperator.scalar s => if s = "" then false else true
  | RawOperator.refs _ => true

/-- JavaScript Array-to-string coercion: elements joined with commas. -/
def jsJoin : List String → String
  | [] => ""
  | [x] => x
  | x :: y :: rest => x ++ "," ++ jsJoin (y :: rest)

/-- String coercion applied when the raw cell is interpolated into the
filterByFormula template literal: an array joins its elements with
commas, so a single-element list coerces to its element. -/
def jsToString : RawOperator → String
  | RawOperator.absent => "undefined"
  | RawOperator.scalar s => s
  | RawOperator.refs l => jsJoin l

/-- A raw row of the Tasks table as `record.get` exposes it: every field
optional and loosely typed. -/
structure RawTaskRecord where
  id : String
  orderName : Option String := none
  status : Option TaskStatus := none
  shippingName : Option String := none
  createdAt : Option RawDate := none
  checklistJson : Option String := none
  currentOperator : RawOperator := RawOperator.absent
  shippingAddress1 : Option String := none
  shippingAddress2 : Option String := none
  shippingCity : Option String := none
  shippingProvince : Option String := none
  shippingZip : Option String := none
  shippingPhone : Option String := none
  isPaused : Option Bool := none
  inExceptionPool : Option Bool := none
  exceptionReason : Option String := none
  exceptionLoggedAt : Option String := none
  exceptionNotes : Option String := none
  updatedAt : Option String := none
  deriving Repr, DecidableEq

/-- FulfillmentTask domain object from src/types/index.ts. -/
structure FulfillmentTask where
  id : String
  orderName : String
  status : TaskStatus
  shippingName : String
  createdAt : String
  checklistJson : String
  currentOperator : Option StaffMember
  shippingAddress1 : Option String
  shippingAddress2 : Option String
  shippingCity : Option String
  shippingProvince : Option String
  shippingZip : Option String
  shippingPhone : Option String
  isPaused : Bool
  inExceptionPool : Bool
  exceptionReason : Option String
  exceptionLoggedAt : Option String
  exceptionNotes : Option String
  lastModifiedAt : Option String
  deriving Repr, DecidableEq

/-- `record.get(f) as string || default`: the empty string is falsy, so
it also falls back to the default. -/
def orDefault (o : Option String) (d : String) : String :=
  match o with
  | none => d
  | some s => if s = "" then d else s

/-- `record.get(f) as string || undefined`: the empty string collapses
to undefined. -/
def strOrNone (o : Option String) : Option String :=
  match o with
  | none => none
  | some s => if s = "" then none else some s

/-- AirtableService.getOperatorFromStaffId: filter Staff by staff_id and
return the domain object; any store failure is caught and yields
undefined. -/
def getOperatorFromStaffId (staff : List StaffRec) (staffId : String) :
    Option StaffMember :=
  (staff.find? (fun r => r.staffId = staffId)).map
    (fun r => { id := r.staffId, name := r.name })

/-- The created_at handling shared by both mappers: parse inside a
`try`, substitute the current time on a parse failure or an absent
value. -/
def mapCreatedAt (now : String) (raw : Option RawDate) : String :=
  match raw with
  | some d =>
    match toISOString d with
    | Except.ok s => s
    | Except.error _ => now
  | none => now

/-- AirtableService.mapTaskRecord (the mapper in production use).  The
raw current_operator cell is passed to getOperatorFromStaffId whose
filter formula coerces it to a string (jsToString). -/
def mapTaskRecord (now : String) (staff : List StaffRec) (r : RawTaskRecord) :
    FulfillmentTask :=
  let createdAtISO := mapCreatedAt now r.createdAt
  let currentOperator :=
    if rawOpTruthy r.currentOperator then
      getOperatorFromStaffId staff (jsToString r.currentOperator)
    else none
  { id := r.id
    orderName := orDefault r.orderName ""
    status := r.status.getD TaskStatus.pending
    shippingName := orDefault r.shippingName ""
    createdAt := createdAtISO
    checklistJson := orDefault r.checklistJson "[]"
    currentOperator := currentOperator
    shippingAddress1 := strOrNone r.shippingAddress1
    shippingAddress2 := strOrNone r.shippingAddress2
    shippingCity := strOrNone r.shippingCity
    shippingProvince := strOrNone r.shippingProvince
    shippingZip := strOrNone r.shippingZip
    shippingPhone := strOrNone r.shippingPhone
    isPaused := r.isPaused.getD false
    inExceptionPool := r.inExceptionPool.getD false
    exceptionReason := strOrNone r.exceptionReason
    exceptionLoggedAt := strOrNone r.exceptionLoggedAt
    exceptionNotes := strOrNone r.exceptionNotes
    lastModifiedAt := r.updatedAt }

/-- AirtableService.mapTaskRecordLegacy: same shape, but the reference
list is unwrapped explicitly by taking its first element (an empty list
indexes to undefined, which interpolates as the string undefined). -/
def mapTaskRecordLegacy (now : String) (staff : List StaffRec) (r : RawTaskRecord) :
    FulfillmentTask :=
  let createdAtISO := mapCreatedAt now r.createdAt
  let currentOperator :=
    if rawOpTruthy r.currentOperator then
      let staffId :=
        match r.currentOperator with
        | RawOperator.refs (x :: _) => x
        | RawOperator.refs [] => "undefined"
        | RawOperator.scalar s => s
        | RawOperator.absent => "undefined"
      getOperatorFromStaffId staff staffId
    else none
  let lastModifiedAtISO :=
    match r.updatedAt with
    | some s => some s
    | none => none
  { id := r.id
    orderName := orDefault r.orderName ""
    status := r.status.getD TaskStatus.pending
    shippingName := orDefault r.shippingName ""
    createdAt := createdAtISO
    checklistJson := orDefault r.checklistJson "[]"
    currentOperator := currentOperator
    shippingAddress1 := strOrNone r.shippingAddress1
    shippingAddress2 := strOrNone r.shippingAddress2
    shippingCity := strOrNone r.shippingCity
    shippingProvince := strOrNone r.shippingProvince
    shippingZip := strOrNone r.shippingZip
    shippingPhone := strOrNone r.shippingPhone
    isPaused := r.isPaused.getD false
    inExceptionPool := r.inExceptionPool.getD false
    exceptionReason := strOrNone r.exceptionReason
    exceptionLoggedAt := strOrNone r.exceptionLoggedAt
    exceptionNotes := strOrNone r.exceptionNotes
    lastModifiedAt := lastModifiedAtISO }

/-- The nine granular buckets of
AirtableService.getTasksGroupedByStatusOptimized. -/
structure GroupedTasks where
  pending : List FulfillmentTask
  picking : List FulfillmentTask
  packed : List FulfillmentTask
  inspecting : List FulfillmentTask
  correctionNeeded : List FulfillmentTask
  correcting : List FulfillmentTask
  completed : List FulfillmentTask
  paused : List FulfillmentTask
  cancelled : List FulfillmentTask
  deriving Repr, DecidableEq

/-- The grouping filters of getTasksGroupedByStatusOptimized: every
active-status bucket excludes paused tasks, but completed and cancelled
filter on status alone, and paused filters on the flag alone. -/
def getTasksGroupedByStatusOptimized (tasks : List FulfillmentTask) : GroupedTasks :=
  { pending := tasks.filter (fun t => t.status = TaskStatus.pending ∧ ¬ t.isPaused)
    picking := tasks.filter (fun t => t.status = TaskStatus.picking ∧ ¬ t.isPaused)
    packed := tasks.filter (fun t => t.status = TaskStatus.packed ∧ ¬ t.isPaused)
    inspecting := tasks.filter (fun t => t.status = TaskStatus.inspecting ∧ ¬ t.isPaused)
    correctionNeeded := tasks.filter
      (fun t => t.status = TaskStatus.correctionNeeded ∧ ¬ t.isPaused)
    correcting := tasks.filter (fun t => t.status = TaskStatus.correcting ∧ ¬ t.isPaused)
    completed := tasks.filter (fun t => t.status = TaskStatus.completed)
    paused := tasks.filter (fun t => t.isPaused = true)
    cancelled := tasks.filter (fun t => t.status = TaskStatus.cancelled) }

/-- The seven simplified buckets the dashboard route serves. -/
structure SimplifiedGroups where
  pending : List FulfillmentTask
  picking : List FulfillmentTask
  packed : List FulfillmentTask
  inspecting : List FulfillmentTask
  completed : List FulfillmentTask
  paused : List FulfillmentTask
  cancelled : List FulfillmentTask
  deriving Repr, DecidableEq

/-- GET /api/dashboard step 2: merge Inspecting, Correction_Needed and
Correcting into one bucket. -/
def simplifyGroups (g : GroupedTasks) : SimplifiedGroups :=
  { pending := g.pending
    picking := g.picking
    packed := g.packed
    inspecting := g.inspecting ++ g.correctionNeeded ++ g.correcting
    completed := g.completed
    paused := g.paused
    cancelled := g.cancelled }

/-- The simplified grouping as the dashboard route computes it. -/
def dashboardGroups (tasks : List FulfillmentTask) : SimplifiedGroups :=
  simplifyGroups (getTasksGroupedByStatusOptimized tasks)

/-- The dashboard statistics object. -/
structure DashboardStats where
  pending : Nat
  picking : Nat
  packed : Nat
  inspecting : Nat
  completed : Nat
  paused : Nat
  cancelled : Nat
  total : Nat
  deriving Repr, DecidableEq

/-- GET /api/dashboard step 3: bucket sizes, with total the sum over all
seven buckets (so a task in two buckets counts twice). -/
def dashboardStats (s : SimplifiedGroups) : DashboardStats :=
  { pending := s.pending.length
    picking := s.picking.length
    packed := s.packed.length
    inspecting := s.inspecting.length
    completed := s.completed.length
    paused := s.paused.length
    cancelled := s.cancelled.length
    total := s.pending.length + s.picking.length + s.packed.length +
      s.inspecting.length + s.completed.length + s.paused.length +
      s.cancelled.length }

/-- A concrete staff member used by the concrete instances below. -/
def staffAlice : StaffRec := { recordId := "recOP1", staffId := "OP1", name := "Alice" }

/-- A concrete task row in status Picking with an assigned operator. -/
def taskPicking : TaskFields :=
  { status := TaskStatus.picking
    currentOperator := "OP1"
    isPaused := false
    inExceptionPool := false
    exceptionReason := none
    exceptionNotes := none
    exceptionLoggedAt := none
    startedAt := none
    pickedAt := none
    startInspectionAt := none
    completedAt := none
    updatedAt := none }

/-- A concrete store with one Picking task and one staff member. -/
def st0 : St := { tasks := [("T1", taskPicking)], staff := [staffAlice], audit := [] }

/-- A valid START_PACKING payload. -/
def payloadPack : ActionPayload := { weight := some "2kg", dimensions := some "10x10x10" }

/-- A valid REPORT_EXCEPTION payload. -/
def payloadReason : ActionPayload := { reason := some "damaged_item" }

/-- A payload satisfying every branch validation at once. -/
def payloadFull : ActionPayload :=
  { weight := some "2kg"
    dimensions := some "10x10x10"
    errorType := some "wrong_item"
    reason := some "damaged_item"
    notes := some "left corner dented" }

/-- The response computed by finishUpdate, as a function of the Except
value alone. -/
def respOfExcept : Except String (Option TaskFields) → ActionResponse
  | Except.error _ => resp500
  | Except.ok none => resp404
  | Except.ok (some t) => { httpStatus := 200, success := true, task := some t }

theorem finishUpdate_eq (r : St × Except String (Option TaskFields)) :
    finishUpdate r = (r.1, respOfExcept r.2) := by
  rcases r with ⟨st, e⟩
  cases e with
  | error e => rfl
  | ok o => cases o <;> rfl

theorem finishAction_eq (st : St) (u : Option TaskFields) :
    finishAction st u = (st, respOfExcept (Except.ok u)) := by
  cases u <;> rfl

theorem logAction_fst_tasks (fa : Bool) (now op tid act : String)
    (ov nv d ts : Option String) (st : St) :
    ((logAction fa now op tid act ov nv d ts st).1).tasks = st.tasks := by
  unfold logAction
  split <;> rfl

theorem logAction_fst_audit_false (now op tid act : String)
    (ov nv d ts : Option String) (st : St) :
    ((logAction false now op tid act ov nv d ts st).1).audit =
      buildAuditEntry now op tid act ov nv d ts st :: st.audit := rfl

/-- Closed form of atomicTaskOperation: the audit entry is prepended
exactly when the audit write does not fail, the task table evolves by
the core update, and the returned flag records the audit outcome. -/
theorem atomicTaskOperation_closed (fa fu : Bool) (now tid op act : String)
    (u : TaskUpdate) (ov nv d : Option String) (st : St) :
    atomicTaskOperation fa fu now tid op act u ov nv d st =
      (⟨(updCore fu tid u st.tasks).1,
        st.staff,
        if fa then st.audit else buildAuditEntry now op tid act ov nv d none st :: st.audit⟩,
       match (updCore fu tid u st.tasks).2 with
       | Except.ok f => Except.ok (f, if fa then false else true)
       | Except.error e => Except.error ("Failed to update task: " ++ e)) := by
  cases fa <;>
    · unfold atomicTaskOperation logAction airtableUpdate
      rcases h : updCore fu tid u st.tasks with ⟨ts2, e⟩
      cases e <;> simp [h]

/-- The response and the resulting Tasks table of updateTaskStatus do
not depend on whether the audit write fails. -/
theorem updateTaskStatus_fa (ff fa fu : Bool) (now tid : String) (s : TaskStatus)
    (op : Option String) (st : St) :
    (updateTaskStatus ff fa fu now tid s op st).2 =
      (updateTaskStatus ff false fu now tid s op st).2 ∧
    ((updateTaskStatus ff fa fu now tid s op st).1).tasks =
      ((updateTaskStatus ff false fu now tid s op st).1).tasks := by
  unfold updateTaskStatus
  cases hg : getTaskById ff tid st with
  | none => exact ⟨rfl, rfl⟩
  | some ct =>
    simp only [hg]
    by_cases hop : optTruthy op = true
    · simp only [hop, if_true]
      rw [atomicTaskOperation_closed, atomicTaskOperation_closed]
      cases h : (updCore fu tid (buildStatusUpdate now s op) st.tasks).2 <;> simp [h]
    · simp [hop]

/-- The response and the resulting Tasks table of pauseTask do not
depend on whether the audit write fails. -/
theorem pauseTask_fa (ff fa fu : Bool) (now tid : String)
    (op : Option String) (st : St) :
    (pauseTask ff fa fu now tid op st).2 = (pauseTask ff false fu now tid op st).2 ∧
    ((pauseTask ff fa fu now tid op st).1).tasks =
      ((pauseTask ff false fu now tid op st).1).tasks := by
  unfold pauseTask
  by_cases hop : optTruthy op = true
  · simp only [hop, if_true]
    rw [atomicTaskOperation_closed, atomicTaskOperation_closed]
    cases h : (updCore fu tid
        { isPaused := some true, currentOperator := some "", updatedAt := some now }
        st.tasks).2 <;> simp [h]
  · simp [hop]

/-- The response and the resulting Tasks table of resumeTask do not
depend on whether the audit write fails. -/
theorem resumeTask_fa (ff fa fu : Bool) (now tid op : String) (st : St) :
    (resumeTask ff fa fu now tid op st).2 = (resumeTask ff false fu now tid op st).2 ∧
    ((resumeTask ff fa fu now tid op st).1).tasks =
      ((resumeTask ff false fu now tid op st).1).tasks := by
  unfold resumeTask
  cases hg : getTaskById ff tid st with
  | none => exact ⟨rfl, rfl⟩
  | some ct =>
    simp only [hg]
    rw [atomicTaskOperation_closed, atomicTaskOperation_closed]
    cases h : (updCore fu tid
        { isPaused := some false
          updatedAt := some now
          currentOperator := if op = "" then none else some op } st.tasks).2 <;> simp [h]

/-- C4: for every task action, an audit-log write failure is invisible
to the HTTP caller and to the task table: the response and the
resulting Tasks table are exactly those of the run where the audit
write succeeds, so the mutation is still applied and the normal result
is returned; the failure is never surfaced as a request error. -/
theorem audit_failure_invisible (ff fu : Bool) (now : String)
    (taskId actionStr operatorId : Option String) (payload : ActionPayload) (st : St) :
    (postTaskAction ff true fu now taskId actionStr operatorId payload st).2 =
      (postTaskAction ff false fu now taskId actionStr operatorId payload st).2 ∧
    ((postTaskAction ff true fu now taskId actionStr operatorId payload st).1).tasks =
      ((postTaskAction ff false fu now taskId actionStr operatorId payload st).1).tasks := by
  unfold postTaskAction
  split
  · exact ⟨rfl, rfl⟩
  · cases hpa : parseAction (actionStr.getD "") with
    | none => exact ⟨rfl, rfl⟩
    | some a =>
      cases a <;> dsimp only
      case startPicking =>
        rw [finishUpdate_eq, finishUpdate_eq]
        refine ⟨?_, (updateTaskStatus_fa ff true fu now (taskId.getD "")
          TaskStatus.picking operatorId st).2⟩
        rw [(updateTaskStatus_fa ff true fu now (taskId.getD "")
          TaskStatus.picking operatorId st).1]
      case startInspection =>
        rw [finishUpdate_eq, finishUpdate_eq]
        refine ⟨?_, (updateTaskStatus_fa ff true fu now (taskId.getD "")
          TaskStatus.inspecting operatorId st).2⟩
        rw [(updateTaskStatus_fa ff true fu now (taskId.getD "")
          TaskStatus.inspecting operatorId st).1]
      case startCorrection =>
        rw [finishUpdate_eq, finishUpdate_eq]
        refine ⟨?_, (updateTaskStatus_fa ff true fu now (taskId.getD "")
          TaskStatus.correcting operatorId st).2⟩
        rw [(updateTaskStatus_fa ff true fu now (taskId.getD "")
          TaskStatus.correcting operatorId st).1]
      case cancelTask =>
        rw [finishUpdate_eq, finishUpdate_eq]
        refine ⟨?_, (updateTaskStatus_fa ff true fu now (taskId.getD "")
          TaskStatus.cancelled operatorId st).2⟩
        rw [(updateTaskStatus_fa ff true fu now (taskId.getD "")
          TaskStatus.cancelled operatorId st).1]
      case enterCorrection =>
        split
        · exact ⟨rfl, rfl⟩
        · rw [finishUpdate_eq, finishUpdate_eq]
          refine ⟨?_, (updateTaskStatus_fa ff true fu now (taskId.getD "")
            TaskStatus.correctionNeeded operatorId st).2⟩
          rw [(updateTaskStatus_fa ff true fu now (taskId.getD "")
            TaskStatus.correctionNeeded operatorId st).1]
      case pauseTask =>
        rw [finishUpdate_eq, finishUpdate_eq]
        refine ⟨?_, (pauseTask_fa ff true fu now (taskId.getD "") operatorId st).2⟩
        rw [(pauseTask_fa ff true fu now (taskId.getD "") operatorId st).1]
      case resumeTask =>
        split
        · exact ⟨rfl, rfl⟩
        · rw [finishUpdate_eq, finishUpdate_eq]
          refine ⟨?_, (resumeTask_fa ff true fu now (taskId.getD "")
            (operatorId.getD "") st).2⟩
          rw [(resumeTask_fa ff true fu now (taskId.getD "") (operatorId.getD "") st).1]
      case startPacking =>
        split
        · exact ⟨rfl, rfl⟩
        · have hq := updateTaskStatus_fa ff true fu now (taskId.getD "")
            TaskStatus.packed none st
          rcases hA : updateTaskStatus ff true fu now (taskId.getD "")
            TaskStatus.packed none st with ⟨sa, ea⟩
          rcases hB : updateTaskStatus ff false fu now (taskId.getD "")
            TaskStatus.packed none st with ⟨sb, eb⟩
          rw [hA, hB] at hq
          obtain ⟨h2, ht⟩ := hq
          simp only at h2 ht
          subst h2
          cases ea with
          | error e => exact ⟨rfl, ht⟩
          | ok u =>
            dsimp only
            rw [finishAction_eq, finishAction_eq]
            refine ⟨rfl, ?_⟩
            split <;> simp [logAction_fst_tasks, ht]
      case completeInspection =>
        have hq := updateTaskStatus_fa ff true fu now (taskId.getD "")
          TaskStatus.completed none st
        rcases hA : updateTaskStatus ff true fu now (taskId.getD "")
          TaskStatus.completed none st with ⟨sa, ea⟩
        rcases hB : updateTaskStatus ff false fu now (taskId.getD "")
          TaskStatus.completed none st with ⟨sb, eb⟩
        rw [hA, hB] at hq
        obtain ⟨h2, ht⟩ := hq
        simp only at h2 ht
        subst h2
        cases ea with
        | error e => exact ⟨rfl, ht⟩
        | ok u =>
          dsimp only
          rw [finishAction_eq, finishAction_eq]
          refine ⟨rfl, ?_⟩
          split <;> simp [logAction_fst_tasks, ht]
      case resolveCorrection =>
        have hq := updateTaskStatus_fa ff true fu now (taskId.getD "")
          TaskStatus.completed none st
        rcases hA : updateTaskStatus ff true fu now (taskId.getD "")
          TaskStatus.completed none st with ⟨sa, ea⟩
        rcases hB : updateTaskStatus ff false fu now (taskId.getD "")
          TaskStatus.completed none st with ⟨sb, eb⟩
        rw [hA, hB] at hq
        obtain ⟨h2, ht⟩ := hq
        simp only at h2 ht
        subst h2
        cases ea with
        | error e => exact ⟨rfl, ht⟩
        | ok u =>
          dsimp only
          rw [finishAction_eq, finishAction_eq]
          refine ⟨rfl, ?_⟩
          split <;> simp [logAction_fst_tasks, ht]
      case labelCreated =>
        have hq := updateTaskStatus_fa ff true fu now (taskId.getD "")
          TaskStatus.completed none st
        rcases hA : updateTaskStatus ff true fu now (taskId.getD "")
          TaskStatus.completed none st with ⟨sa, ea⟩
        rcases hB : updateTaskStatus ff false fu now (taskId.getD "")
          TaskStatus.completed none st with ⟨sb, eb⟩
        rw [hA, hB] at hq
        obtain ⟨h2, ht⟩ := hq
        simp only at h2 ht
        subst h2
        cases ea with
        | error e => exact ⟨rfl, ht⟩
        | ok u =>
          dsimp only
          rw [finishAction_eq, finishAction_eq]
          refine ⟨rfl, ?_⟩
          split <;> simp [logAction_fst_tasks, ht]
      case reportException =>
        split
        · exact ⟨rfl, rfl⟩
        · have hq := updateTaskStatus_fa ff true fu now (taskId.getD "")
            TaskStatus.pending operatorId st
          rcases hA : updateTaskStatus ff true fu now (taskId.getD "")
            TaskStatus.pending operatorId st with ⟨sa, ea⟩
          rcases hB : updateTaskStatus ff false fu now (taskId.getD "")
            TaskStatus.pending operatorId st with ⟨sb, eb⟩
          rw [hA, hB] at hq
          obtain ⟨h2, ht⟩ := hq
          simp only at h2 ht
          subst h2
          cases ea with
          | error e => exact ⟨rfl, ht⟩
          | ok u =>
            dsimp only
            rw [finishAction_eq, finishAction_eq]
            refine ⟨rfl, ?_⟩
            split <;> simp [logAction_fst_tasks, ht]

theorem parseAction_actionName (a : TaskAction) : parseAction (actionName a) = some a := by
  cases a <;> rfl

/-- C1 counterexample: START_PACKING with an operator and a valid
payload, where the task update fails: the request errors with 500 and
the audit log is still empty, so no audit record was appended before
the mutation was attempted. -/
theorem startPacking_failed_update_no_audit :
    (postTaskAction false false true "t0" (some "T1") (some "START_PACKING")
      (some "OP1") payloadPack st0).2 = resp500 ∧
    ((postTaskAction false false true "t0" (some "T1") (some "START_PACKING")
      (some "OP1") payloadPack st0).1).audit = [] ∧
    st0.audit = [] := by
  refine ⟨?_, ?_, rfl⟩ <;> rfl

/-- C1 amended: an audit record is appended before the task mutation
exactly for the actions routed through atomicTaskOperation with the
operator (START_PICKING, START_INSPECTION, ENTER_CORRECTION,
START_CORRECTION, CANCEL_TASK, PAUSE_TASK, RESUME_TASK,
REPORT_EXCEPTION): there a failed task update reports 500 with the
audit record in place.  For START_PACKING, COMPLETE_INSPECTION,
RESOLVE_CORRECTION and LABEL_CREATED the mutation is applied first and
the audit entry is written only after it succeeds, so a failed update
leaves no audit record. -/
theorem audit_write_ordering (now tid op : String) (st : St) (f : TaskFields)
    (htid : tid ≠ "") (hop : op ≠ "")
    (hfind : st.tasks.find? (fun q => q.1 = tid) = some (tid, f)) :
    (∀ a, a ∈ [TaskAction.startPicking, TaskAction.startInspection,
        TaskAction.enterCorrection, TaskAction.startCorrection,
        TaskAction.cancelTask, TaskAction.pauseTask, TaskAction.resumeTask,
        TaskAction.reportException] →
      (postTaskAction false false true now (some tid) (some (actionName a))
        (some op) payloadFull st).2 = resp500 ∧
      ((postTaskAction false false true now (some tid) (some (actionName a))
        (some op) payloadFull st).1).audit.length = st.audit.length + 1) ∧
    (∀ a, a ∈ [TaskAction.startPacking, TaskAction.completeInspection,
        TaskAction.resolveCorrection, TaskAction.labelCreated] →
      (postTaskAction false false true now (some tid) (some (actionName a))
        (some op) payloadFull st).2 = resp500 ∧
      ((postTaskAction false false true now (some tid) (some (actionName a))
        (some op) payloadFull st).1).audit = st.audit) := by
  constructor <;> intro a ha <;> fin_cases ha <;>
    simp [postTaskAction, parseAction, actionName, optTruthy, htid, hop,
      updateTaskStatus, pauseTask, resumeTask, getTaskById, hfind,
      atomicTaskOperation, logAction, airtableUpdate, updCore, finishUpdate,
      finishAction, respOfExcept, payloadFull, resp500]

/-- C1 witness: the amended theorem applied at a concrete store, for one
audit-first action and one mutate-first action. -/
theorem audit_write_ordering_witness :
    ((postTaskAction false false true "t0" (some "T1")
      (some (actionName TaskAction.startPicking)) (some "OP1") payloadFull st0).2 = resp500 ∧
     ((postTaskAction false false true "t0" (some "T1")
      (some (actionName TaskAction.startPicking)) (some "OP1") payloadFull st0).1).audit.length =
        st0.audit.length + 1) ∧
    ((postTaskAction false false true "t0" (some "T1")
      (some (actionName TaskAction.startPacking)) (some "OP1") payloadFull st0).2 = resp500 ∧
     ((postTaskAction false false true "t0" (some "T1")
      (some (actionName TaskAction.startPacking)) (some "OP1") payloadFull st0).1).audit = st0.audit) := by
  have h := audit_write_ordering "t0" "T1" "OP1" st0 taskPicking
    (by decide) (by decide) (by decide)
  exact ⟨h.1 TaskAction.startPicking (by decide), h.2 TaskAction.startPacking (by decide)⟩

/-- C2 counterexample: REPORT_EXCEPTION with an operator succeeds (200)
but the resulting task carries the acting operator instead of an empty
operator field, because the route passes operator_id through to the
status update. -/
theorem reportException_sets_operator :
    (postTaskAction false false false "t0" (some "T1") (some "REPORT_EXCEPTION")
      (some "OP1") payloadReason st0).2.httpStatus = 200 ∧
    ((postTaskAction false false false "t0" (some "T1") (some "REPORT_EXCEPTION")
      (some "OP1") payloadReason st0).2.task.map (fun t => t.currentOperator)) = some "OP1" ∧
    ("OP1" : String) ≠ "" := by
  exact ⟨rfl, rfl, by decide⟩

/-- C2 amended: START_PACKING, COMPLETE_INSPECTION, RESOLVE_CORRECTION,
LABEL_CREATED and PAUSE_TASK leave the resulting task with an empty
operator field; REPORT_EXCEPTION instead sets the operator field to the
acting operator when one is provided. -/
theorem operator_clearing_actions (now tid op : String) (st : St) (f : TaskFields)
    (htid : tid ≠ "") (hop : op ≠ "")
    (hfind : st.tasks.find? (fun q => q.1 = tid) = some (tid, f)) :
    (∀ a, a ∈ [TaskAction.startPacking, TaskAction.completeInspection,
        TaskAction.resolveCorrection, TaskAction.labelCreated, TaskAction.pauseTask] →
      ((postTaskAction false false false now (some tid) (some (actionName a))
        (some op) payloadFull st).2.task.map (fun t => t.currentOperator)) = some "") ∧
    ((postTaskAction false false false now (some tid)
      (some (actionName TaskAction.reportException)) (some op) payloadFull st).2.task.map
        (fun t => t.currentOperator)) = some op := by
  constructor
  · intro a ha
    fin_cases ha <;>
      simp [postTaskAction, parseAction, actionName, optTruthy, htid, hop,
        updateTaskStatus, pauseTask, getTaskById, hfind, atomicTaskOperation,
        logAction, airtableUpdate, updCore, finishUpdate, finishAction,
        respOfExcept, payloadFull, applyUpdate, buildStatusUpdate]
  · simp [postTaskAction, parseAction, actionName, optTruthy, htid, hop,
      updateTaskStatus, getTaskById, hfind, atomicTaskOperation, logAction,
      airtableUpdate, updCore, finishUpdate, finishAction, respOfExcept,
      payloadFull, applyUpdate, buildStatusUpdate]

/-- C2 witness: the amended theorem applied at a concrete store for
START_PACKING and REPORT_EXCEPTION. -/
theorem operator_clearing_actions_witness :
    ((postTaskAction false false false "t0" (some "T1")
      (some (actionName TaskAction.startPacking)) (some "OP1") payloadFull st0).2.task.map
        (fun t => t.currentOperator)) = some "" ∧
    ((postTaskAction false false false "t0" (some "T1")
      (some (actionName TaskAction.reportException)) (some "OP1") payloadFull st0).2.task.map
        (fun t => t.currentOperator)) = some "OP1" := by
  have h := operator_clearing_actions "t0" "T1" "OP1" st0 taskPicking
    (by decide) (by decide) (by decide)
  exact ⟨h.1 TaskAction.startPacking (by decide), h.2⟩

/-- C3 counterexample: REPORT_EXCEPTION with reason damaged_item on the
Picking task: the response task has status Pending, but
in_exception_pool is still false and exception_reason still unset,
contradicting the claim that they are set by this route. -/
theorem reportException_no_exception_pool :
    (postTaskAction false false false "t0" (some "T1") (some "REPORT_EXCEPTION")
      (some "OP1") payloadReason st0).2.task.map (fun t => t.status) =
        some TaskStatus.pending ∧
    (postTaskAction false false false "t0" (some "T1") (some "REPORT_EXCEPTION")
      (some "OP1") payloadReason st0).2.task.map (fun t => t.inExceptionPool) =
        some false ∧
    (postTaskAction false false false "t0" (some "T1") (some "REPORT_EXCEPTION")
      (some "OP1") payloadReason st0).2.task.map (fun t => t.exceptionReason) =
        some none ∧
    payloadReason.reason = some "damaged_item" := by
  exact ⟨rfl, rfl, rfl, rfl⟩

/-- C3 amended: REPORT_EXCEPTION via POST /api/tasks/action with a
reason sets the task status to Pending but does not modify
in_exception_pool or exception_reason, and assigns the acting operator
instead of clearing the field. -/
theorem reportException_behavior (now tid op : String) (st : St) (f : TaskFields)
    (p : ActionPayload) (htid : tid ≠ "") (hop : op ≠ "")
    (hreason : optTruthy p.reason = true)
    (hfind : st.tasks.find? (fun q => q.1 = tid) = some (tid, f)) :
    (postTaskAction false false false now (some tid) (some "REPORT_EXCEPTION")
      (some op) p st).2.task.map (fun t => t.status) = some TaskStatus.pending ∧
    (postTaskAction false false false now (some tid) (some "REPORT_EXCEPTION")
      (some op) p st).2.task.map (fun t => t.inExceptionPool) = some f.inExceptionPool ∧
    (postTaskAction false false false now (some tid) (some "REPORT_EXCEPTION")
      (some op) p st).2.task.map (fun t => t.exceptionReason) = some f.exceptionReason ∧
    (postTaskAction false false false now (some tid) (some "REPORT_EXCEPTION")
      (some op) p st).2.task.map (fun t => t.currentOperator) = some op := by
  rcases hr : p.reason with _ | r
  · rw [hr] at hreason
    simp [optTruthy] at hreason
  · have hr2 : r ≠ "" := by
      rw [hr] at hreason
      by_contra hc
      rw [hc] at hreason
      simp [optTruthy] at hreason
    refine ⟨?_, ?_, ?_, ?_⟩ <;>
      simp [postTaskAction, parseAction, optTruthy, htid, hop, hr, hr2,
        updateTaskStatus, getTaskById, hfind, atomicTaskOperation, logAction,
        airtableUpdate, updCore, finishUpdate, finishAction, respOfExcept,
        applyUpdate, buildStatusUpdate]

/-- C3 witness: the amended theorem at a concrete store. -/
theorem reportException_behavior_witness :
    (postTaskAction false false false "t0" (some "T1") (some "REPORT_EXCEPTION")
      (some "OP1") payloadReason st0).2.task.map (fun t => t.status) =
        some TaskStatus.pending ∧
    (postTaskAction false false false "t0" (some "T1") (some "REPORT_EXCEPTION")
      (some "OP1") payloadReason st0).2.task.map (fun t => t.inExceptionPool) =
        some taskPicking.inExceptionPool ∧
    (postTaskAction false false false "t0" (some "T1") (some "REPORT_EXCEPTION")
      (some "OP1") payloadReason st0).2.task.map (fun t => t.exceptionReason) =
        some taskPicking.exceptionReason ∧
    (postTaskAction false false false "t0" (some "T1") (some "REPORT_EXCEPTION")
      (some "OP1") payloadReason st0).2.task.map (fun t => t.currentOperator) =
        some "OP1" :=
  reportException_behavior "t0" "T1" "OP1" st0 taskPicking payloadReason
    (by decide) (by decide) (by decide) (by decide)

/-- C5 counterexample: the task T1 exists in the store, yet when the
store call inside getTaskById fails the handler answers 404, not the
500 the claim requires for a failure other than absence. -/
theorem getTask_store_failure_is_404 :
    getTaskHandler true "T1" st0 = resp404 ∧
    st0.tasks.find? (fun p => p.1 = "T1") = some ("T1", taskPicking) ∧
    resp404.httpStatus ≠ 500 := by
  exact ⟨rfl, rfl, by decide⟩

/-- C5 amended: a missing required field yields 400; an absent task or
staff member yields 404; a remote-store failure that propagates to the
handler yields 500 (shown for a failed task update on both the atomic
and the direct write path of POST /api/tasks/action); but GET
/api/tasks/:id answers 404 (not 500) when the store call fails for a
reason other than the task being absent, because getTaskById swallows
every error into null; 200 is returned only when the lookup succeeds. -/
theorem error_taxonomy :
    (∀ (ff fa fu : Bool) (now : String) (act op : Option String)
        (p : ActionPayload) (st : St),
      postTaskAction ff fa fu now none act op p st = (st, resp400)) ∧
    (∀ (ff fa fu : Bool) (now : String) (tid op : Option String)
        (p : ActionPayload) (st : St),
      postTaskAction ff fa fu now tid none op p st = (st, resp400)) ∧
    (∀ (tid : String) (st : St), st.tasks.find? (fun q => q.1 = tid) = none →
      getTaskHandler false tid st = resp404) ∧
    (∀ (sid : String) (st : St), st.staff.find? (fun r => r.staffId = sid) = none →
      getStaffHandler sid st = { httpStatus := 404, success := false, staff := none }) ∧
    (∀ (sid : String) (st : St) (rec : StaffRec),
        st.staff.find? (fun r => r.staffId = sid) = some rec →
      getStaffHandler sid st =
        { httpStatus := 200, success := true, staff := some { id := rec.staffId, name := rec.name } }) ∧
    (∀ (now tid op : String) (st : St) (f : TaskFields), tid ≠ "" → op ≠ "" →
        st.tasks.find? (fun q => q.1 = tid) = some (tid, f) →
      (postTaskAction false false true now (some tid) (some "START_PICKING")
        (some op) payloadFull st).2 = resp500) ∧
    (∀ (now tid op : String) (st : St) (f : TaskFields), tid ≠ "" → op ≠ "" →
        st.tasks.find? (fun q => q.1 = tid) = some (tid, f) →
      (postTaskAction false false true now (some tid) (some "START_PACKING")
        (some op) payloadFull st).2 = resp500) ∧
    (∀ (tid : String) (st : St), getTaskHandler true tid st = resp404) ∧
    (∀ (tid : String) (st : St) (f : TaskFields),
        st.tasks.find? (fun q => q.1 = tid) = some (tid, f) →
      getTaskHandler false tid st = { httpStatus := 200, success := true, task := some f }) := by
  refine ⟨?_, ?_, ?_, ?_, ?_, ?_, ?_, ?_, ?_⟩
  · intro ff fa fu now act op p st
    simp [postTaskAction, optTruthy]
  · intro ff fa fu now tid op p st
    simp [postTaskAction, optTruthy]
  · intro tid st h
    simp [getTaskHandler, getTaskById, h]
  · intro sid st h
    simp [getStaffHandler, getStaffById, h]
  · intro sid st rec h
    simp [getStaffHandler, getStaffById, h]
  · intro now tid op st f htid hop hfind
    simp [postTaskAction, parseAction, optTruthy, htid, hop, updateTaskStatus,
      getTaskById, hfind, atomicTaskOperation, logAction, airtableUpdate,
      updCore, finishUpdate, finishAction, respOfExcept, payloadFull, resp500]
  · intro now tid op st f htid hop hfind
    simp [postTaskAction, parseAction, optTruthy, htid, hop, updateTaskStatus,
      getTaskById, hfind, atomicTaskOperation, logAction, airtableUpdate,
      updCore, finishUpdate, finishAction, respOfExcept, payloadFull, resp500]
  · intro tid st
    rfl
  · intro tid st f h
    simp [getTaskHandler, getTaskById, h]

/-- C5 witness: the amended theorem at concrete inputs: a missing
required field, an absent task, an absent and a present staff member, a
propagating update failure on both write paths, and the
store-failure-but-task-present case. -/
theorem error_taxonomy_witness :
    postTaskAction false false false "t0" none (some "START_PICKING") (some "OP1")
      payloadFull st0 = (st0, resp400) ∧
    getTaskHandler false "T2" st0 = resp404 ∧
    getStaffHandler "OPX" st0 = { httpStatus := 404, success := false, staff := none } ∧
    getStaffHandler "OP1" st0 =
      { httpStatus := 200, success := true, staff := some { id := "OP1", name := "Alice" } } ∧
    (postTaskAction false false true "t0" (some "T1") (some "START_PICKING")
      (some "OP1") payloadFull st0).2 = resp500 ∧
    (postTaskAction false false true "t0" (some "T1") (some "START_PACKING")
      (some "OP1") payloadFull st0).2 = resp500 ∧
    getTaskHandler true "T1" st0 = resp404 ∧
    getTaskHandler false "T1" st0 =
      { httpStatus := 200, success := true, task := some taskPicking } := by
  refine ⟨error_taxonomy.1 false false false "t0" (some "START_PICKING") (some "OP1") payloadFull st0,
    error_taxonomy.2.2.1 "T2" st0 (by decide),
    error_taxonomy.2.2.2.1 "OPX" st0 (by decide),
    error_taxonomy.2.2.2.2.1 "OP1" st0 staffAlice (by decide),
    error_taxonomy.2.2.2.2.2.1 "t0" "T1" "OP1" st0 taskPicking (by decide) (by decide) (by decide),
    error_taxonomy.2.2.2.2.2.2.1 "t0" "T1" "OP1" st0 taskPicking (by decide) (by decide) (by decide),
    error_taxonomy.2.2.2.2.2.2.2.1 "T1" st0,
    error_taxonomy.2.2.2.2.2.2.2.2 "T1" st0 taskPicking (by decide)⟩

/-- C6: START_PACKING with a payload missing weight or dimensions
returns 400 and the whole store state (tasks, staff and audit log) is
returned untouched. -/
theorem startPacking_validation (ff fa fu : Bool) (now : String)
    (taskId op : Option String) (p : ActionPayload) (st : St)
    (h : ¬ optTruthy p.weight = true ∨ ¬ optTruthy p.dimensions = true) :
    postTaskAction ff fa fu now taskId (some "START_PACKING") op p st = (st, resp400) := by
  unfold postTaskAction
  split
  case isTrue => rfl
  case isFalse =>
    rw [show parseAction ((some "START_PACKING" : Option String).getD "") =
        some TaskAction.startPacking from rfl]

/-- C6 witness: START_PACKING with dimensions missing at a concrete
store: 400 and the state unchanged. -/
theorem startPacking_validation_witness :
    postTaskAction false false false "t0" (some "T1") (some "START_PACKING")
      (some "OP1") { weight := some "2kg" } st0 = (st0, resp400) :=
  startPacking_validation false false false "t0" (some "T1") (some "OP1")
    { weight := some "2kg" } st0 (Or.inr (by decide))

/-- C7: if the raw created_at value is absent or unparsable (where the
parse genuinely throws, last conjunct), both mappers still produce a
task and its createdAt is the current time. -/
theorem createdAt_fallback (now : String) (staff : List StaffRec) (r : RawTaskRecord)
    (h : r.createdAt = none ∨ ∃ raw, r.createdAt = some (RawDate.invalid raw)) :
    (mapTaskRecord now staff r).createdAt = now ∧
    (mapTaskRecordLegacy now staff r).createdAt = now ∧
    (∀ raw, toISOString (RawDate.invalid raw) = Except.error "Invalid time value") := by
  refine ⟨?_, ?_, fun raw => rfl⟩ <;>
    rcases h with h | ⟨raw, h⟩ <;>
      simp [mapTaskRecord, mapTaskRecordLegacy, mapCreatedAt, toISOString, h]

/-- A raw row whose created_at cell cannot be parsed as a date. -/
def rawInvalidDate : RawTaskRecord :=
  { id := "T9", createdAt := some (RawDate.invalid "not-a-date") }

/-- C7 witness: the fallback at a concrete unparsable row. -/
theorem createdAt_fallback_witness :
    (mapTaskRecord "t0" [] rawInvalidDate).createdAt = "t0" ∧
    (mapTaskRecordLegacy "t0" [] rawInvalidDate).createdAt = "t0" := by
  have h := createdAt_fallback "t0" [] rawInvalidDate (Or.inr ⟨"not-a-date", rfl⟩)
  exact ⟨h.1, h.2.1⟩

/-- C8: a present current_operator cell, whether a plain scalar or a
single-element reference list, resolves through a staff lookup keyed by
that value in both mappers; an unresolved lookup yields an absent
operator, and a resolved one has staff_id equal to the raw value. -/
theorem operator_both_forms (now : String) (staff : List StaffRec) (r : RawTaskRecord)
    (s : String) (hs : s ≠ "")
    (h : r.currentOperator = RawOperator.scalar s ∨ r.currentOperator = RawOperator.refs [s]) :
    (mapTaskRecord now staff r).currentOperator = getOperatorFromStaffId staff s ∧
    (mapTaskRecordLegacy now staff r).currentOperator = getOperatorFromStaffId staff s ∧
    (getOperatorFromStaffId staff s = none → (mapTaskRecord now staff r).currentOperator = none) ∧
    (∀ m, getOperatorFromStaffId staff s = some m → m.id = s) := by
  have h1 : (mapTaskRecord now staff r).currentOperator = getOperatorFromStaffId staff s := by
    rcases h with h | h <;> simp [mapTaskRecord, rawOpTruthy, jsToString, jsJoin, h, hs]
  have h2 : (mapTaskRecordLegacy now staff r).currentOperator = getOperatorFromStaffId staff s := by
    rcases h with h | h <;> simp [mapTaskRecordLegacy, rawOpTruthy, h, hs]
  refine ⟨h1, h2, fun hn => by rw [h1, hn], ?_⟩
  intro m hm
  rcases hf : staff.find? (fun q => q.staffId = s) with _ | rec
  · rw [getOperatorFromStaffId, hf] at hm
    simp at hm
  · rw [getOperatorFromStaffId, hf] at hm
    have hm2 : ({ id := rec.staffId, name := rec.name } : StaffMember) = m := by
      simpa using hm
    have hrec := List.find?_some hf
    simp only [decide_eq_true_eq] at hrec
    rw [← hm2]
    exact hrec

/-- A raw row whose current_operator cell is a single-element reference
list. -/
def rawRefOperator : RawTaskRecord :=
  { id := "T8", currentOperator := RawOperator.refs ["OP1"] }

/-- C8 witness: the reference-list form at a concrete staff table. -/
theorem operator_both_forms_witness :
    (mapTaskRecord "t0" [staffAlice] rawRefOperator).currentOperator =
      getOperatorFromStaffId [staffAlice] "OP1" ∧
    (mapTaskRecordLegacy "t0" [staffAlice] rawRefOperator).currentOperator =
      getOperatorFromStaffId [staffAlice] "OP1" := by
  have h := operator_both_forms "t0" [staffAlice] rawRefOperator "OP1" (by decide) (Or.inr rfl)
  exact ⟨h.1, h.2.1⟩

/-- The audit log grows by one entry per synced sync-loop element and is
otherwise untouched. -/
theorem syncLoop_audit (now : String) (logs : List SyncLog) :
    ∀ (st : St) (synced errs : Nat),
      ((syncLoop now logs st synced errs).1).audit.length + synced =
        st.audit.length + (syncLoop now logs st synced errs).2.1 := by
  induction logs with
  | nil =>
    intro st synced errs
    simp [syncLoop]
  | cons l rest ih =>
    intro st synced errs
    rw [syncLoop]
    split
    · exact ih st synced (errs + 1)
    · cases hsf : l.storeFails
      · simp only [logAction, hsf, Bool.false_eq_true, if_false, if_true]
        set e := buildAuditEntry now (l.staffId.getD "") (l.taskId.getD "")
          (l.actionType.getD "") (some (l.oldValue.getD "")) (some (l.newValue.getD ""))
          (some (l.details.getD "")) l.timestamp st with he
        have h := ih { tasks := st.tasks, staff := st.staff, audit := e :: st.audit }
          (synced + 1) errs
        simp only [List.length_cons] at h
        omega
      · simp only [logAction, hsf, if_true, if_false, Bool.false_eq_true]
        exact ih st synced (errs + 1)

/-- C9: POST /api/audit-logs/sync reports success exactly when the audit
log grew, the growth equals synced_count, and a valid but empty logs
array yields success false with zero counts. -/
theorem sync_success_iff (now : String) (st : St) (logs : List SyncLog) :
    ((syncHandler (some logs) now st).2.success = true ↔
      st.audit.length < ((syncHandler (some logs) now st).1).audit.length) ∧
    ((syncHandler (some logs) now st).1).audit.length =
      st.audit.length + (syncHandler (some logs) now st).2.syncedCount ∧
    (syncHandler (some ([] : List SyncLog)) now st).2 =
      { httpStatus := 200, success := false, syncedCount := 0, totalLogs := 0,
        errorCount := 0 } := by
  have h := syncLoop_audit now logs st 0 0
  refine ⟨?_, ?_, rfl⟩
  · simp only [syncHandler, decide_eq_true_eq]
    omega
  · simp only [syncHandler]
    omega

/-- A mapped task that is Cancelled and paused at the same time. -/
def taskCancelledPaused : FulfillmentTask :=
  { id := "T5"
    orderName := ""
    status := TaskStatus.cancelled
    shippingName := ""
    createdAt := "t0"
    checklistJson := "[]"
    currentOperator := none
    shippingAddress1 := none
    shippingAddress2 := none
    shippingCity := none
    shippingProvince := none
    shippingZip := none
    shippingPhone := none
    isPaused := true
    inExceptionPool := false
    exceptionReason := none
    exceptionLoggedAt := none
    exceptionNotes := none
    lastModifiedAt := none }

/-- A mapped task that is Completed and paused at the same time. -/
def taskCompletedPaused : FulfillmentTask :=
  { id := "T6"
    orderName := ""
    status := TaskStatus.completed
    shippingName := ""
    createdAt := "t0"
    checklistJson := "[]"
    currentOperator := none
    shippingAddress1 := none
    shippingAddress2 := none
    shippingCity := none
    shippingProvince := none
    shippingZip := none
    shippingPhone := none
    isPaused := true
    inExceptionPool := false
    exceptionReason := none
    exceptionLoggedAt := none
    exceptionNotes := none
    lastModifiedAt := none }

/-- C10 counterexample: a paused Cancelled task (a non-completed status)
appears in both the cancelled bucket and the paused bucket, so paused
tasks are not confined to the paused bucket for every non-completed
status. -/
theorem cancelled_paused_double_bucket :
    taskCancelledPaused ∈ (dashboardGroups [taskCancelledPaused]).cancelled ∧
    taskCancelledPaused ∈ (dashboardGroups [taskCancelledPaused]).paused ∧
    taskCancelledPaused.status ≠ TaskStatus.completed ∧
    taskCancelledPaused.isPaused = true := by
  decide

/-- C10 amended: a paused task always lands in the paused bucket; it
additionally stays in its status bucket when that status is Completed
or Cancelled (both those filters ignore the pause flag), so stats.total
can exceed the number of distinct tasks (last conjunct: one task counts
twice); for every other status a paused task is excluded from all the
status buckets. -/
theorem dashboard_pause_grouping (ts : List FulfillmentTask) (t : FulfillmentTask)
    (hmem : t ∈ ts) (hp : t.isPaused = true) :
    t ∈ (dashboardGroups ts).paused ∧
    (t.status = TaskStatus.completed → t ∈ (dashboardGroups ts).completed) ∧
    (t.status = TaskStatus.cancelled → t ∈ (dashboardGroups ts).cancelled) ∧
    (t.status ≠ TaskStatus.completed → t.status ≠ TaskStatus.cancelled →
      t ∉ (dashboardGroups ts).pending ∧ t ∉ (dashboardGroups ts).picking ∧
      t ∉ (dashboardGroups ts).packed ∧ t ∉ (dashboardGroups ts).inspecting ∧
      t ∉ (dashboardGroups ts).completed ∧ t ∉ (dashboardGroups ts).cancelled) ∧
    (dashboardStats (dashboardGroups [taskCompletedPaused])).total = 2 := by
  refine ⟨?_, ?_, ?_, ?_, by decide⟩
  · simp [dashboardGroups, getTasksGroupedByStatusOptimized, simplifyGroups,
      List.mem_filter, hmem, hp]
  · intro hc
    simp [dashboardGroups, getTasksGroupedByStatusOptimized, simplifyGroups,
      List.mem_filter, hmem, hc]
  · intro hc
    simp [dashboardGroups, getTasksGroupedByStatusOptimized, simplifyGroups,
      List.mem_filter, hmem, hc]
  · intro h1 h2
    refine ⟨?_, ?_, ?_, ?_, ?_, ?_⟩ <;>
      simp [dashboardGroups, getTasksGroupedByStatusOptimized, simplifyGroups,
        List.mem_filter, List.mem_append, hp, h1, h2]

/-- C10 witness: the amended theorem at a single Completed paused task,
which is double-counted. -/
theorem dashboard_pause_grouping_witness :
    taskCompletedPaused ∈ (dashboardGroups [taskCompletedPaused]).paused ∧
    taskCompletedPaused ∈ (dashboardGroups [taskCompletedPaused]).completed ∧
    (dashboardStats (dashboardGroups [taskCompletedPaused])).total = 2 := by
  have h := dashboard_pause_grouping [taskCompletedPaused] taskCompletedPaused
    (by decide) (by decide)
  exact ⟨h.1, h.2.1 rfl, h.2.2.2.2⟩

end CapiCar
